import Mathlib

/-!
Verification of the Netflix data-cleaning and movie-recommendation pipeline
(`apputil.py`): a shallow embedding of its core functions over lists of
records, together with theorems about the cleaning, merging and
recommendation behaviour.

Modelling conventions:
* a pandas DataFrame is a `List` of records; a nullable cell is an `Option`;
* `NaN` string cells are `none`; numeric ratings are `Rat`, vote counts `Int`;
* pandas `sort_values(..., ascending=False)` with the default
  `kind="quicksort"` leaves the relative order of tied keys unspecified; the
  embedding (`sortValuesDescBy`) must pick some concrete non-increasing
  order and uses an insertion sort, but the theorems rely only on
  tie-order-independent properties of it (permutation, sortedness,
  membership);
* `drop_duplicates(subset=k)` keeps the first occurrence (`dropDupFirstBy`);
* Python exceptions (e.g. `re.search` applied to a missing description)
  are embedded with `Except`;
* regular-expression scanning and Python string methods are restricted to
  the ASCII fragment the dataset uses.
-/

namespace Apputil

/-! ### ASCII string helpers -/

/-- Case-insensitive regex search lowers both sides; character-wise lowering
of the underlying character list (ASCII). -/
def lowerCL (s : String) : List Char :=
  s.data.map Char.toLower

/-- Python `str.lower()` (ASCII fragment). -/
def strLower (s : String) : String :=
  String.mk (lowerCL s)

/-- `hasPrefixCL hay need` is true when `need` is a prefix of `hay`. -/
def hasPrefixCL : List Char → List Char → Bool
  | _, [] => true
  | [], _ :: _ => false
  | c :: cs, d :: ds => c == d && hasPrefixCL cs ds

/-- `hasSubstrCL hay need` is true when `need` occurs contiguously in `hay`. -/
def hasSubstrCL : List Char → List Char → Bool
  | [], need => need.isEmpty
  | c :: cs, need => hasPrefixCL (c :: cs) need || hasSubstrCL cs need

/-- Case-insensitive substring test: the embedding of a case-insensitive
`re.search` for an escaped (literal) keyword, and of
`Series.str.contains(pattern, case=False)`. -/
def containsCI (hay need : String) : Bool :=
  hasSubstrCL (lowerCL hay) (lowerCL need)

/-- Python `str.title()` on ASCII text: an alphabetic character is
upper-cased when the previous character is not alphabetic and lower-cased
otherwise; other characters pass through and reset the word state. -/
def pyTitleAux : Bool → List Char → List Char
  | _, [] => []
  | prevCased, c :: cs =>
    if c.isAlpha then
      (if prevCased then c.toLower else c.toUpper) :: pyTitleAux true cs
    else
      c :: pyTitleAux false cs

/-- Python `str.title()` (ASCII fragment). -/
def pyTitle (s : String) : String :=
  String.mk (pyTitleAux false s.data)

/-- Python `str.strip()`: drop whitespace from both ends. -/
def pyStrip (s : String) : String :=
  String.mk (((s.data.dropWhile Char.isWhitespace).reverse.dropWhile Char.isWhitespace).reverse)

/-- Numeric value of a digit run. -/
def digitsToNat (ds : List Char) : Nat :=
  ds.foldl (fun n c => n * 10 + (c.toNat - 48)) 0

/-- Exponent part of a numeric literal, after the `e`/`E`: an optional sign
followed by at least one digit; returns (isNegative, magnitude). -/
def parseExpCL : List Char → Option (Bool × Nat)
  | [] => none
  | '-' :: ds =>
    if ds.isEmpty || !ds.all Char.isDigit then none else some (true, digitsToNat ds)
  | '+' :: ds =>
    if ds.isEmpty || !ds.all Char.isDigit then none else some (false, digitsToNat ds)
  | ds =>
    if !ds.all Char.isDigit then none else some (false, digitsToNat ds)

/-- The exact rational value `mantissa / 10 ^ dExp`, scaled by the
exponent `10 ^ e` or `10 ^ (-e)` of a scientific literal. -/
def scaleDecimal (mantissa : Nat) (dExp : Nat) (neg : Bool) (e : Nat) : Rat :=
  if neg then mkRat (Int.ofNat mantissa) (10 ^ (dExp + e))
  else mkRat (Int.ofNat (mantissa * 10 ^ e)) (10 ^ dExp)

/-- Unsigned numeric literal as accepted by `pd.to_numeric` on a string
cell: digits, an optional fractional part (`123`, `123.`, `123.45`,
`.45`), and an optional exponent (`e`/`E`, optional sign, digits); the
value is the exact rational it denotes. -/
def parseUnsignedCL (cs : List Char) : Option Rat :=
  let intPart := cs.takeWhile Char.isDigit
  let rest1 := cs.dropWhile Char.isDigit
  match rest1 with
  | [] => if intPart.isEmpty then none else some (scaleDecimal (digitsToNat intPart) 0 false 0)
  | '.' :: rest2 =>
    let fracPart := rest2.takeWhile Char.isDigit
    let rest3 := rest2.dropWhile Char.isDigit
    if intPart.isEmpty && fracPart.isEmpty then none
    else
      let mantissa := digitsToNat (intPart ++ fracPart)
      match rest3 with
      | [] => some (scaleDecimal mantissa fracPart.length false 0)
      | c :: rest4 =>
        if c == 'e' || c == 'E' then
          (parseExpCL rest4).map (fun se => scaleDecimal mantissa fracPart.length se.1 se.2)
        else none
  | c :: rest2 =>
    if (c == 'e' || c == 'E') && !intPart.isEmpty then
      (parseExpCL rest2).map (fun se => scaleDecimal (digitsToNat intPart) 0 se.1 se.2)
    else none

/-- `pd.to_numeric(..., errors="coerce")` on a normalised (stripped) cell:
integer, decimal and exponent literals with optional sign, taken at their
exact rational value; anything else coerces to missing.  `inf`/`nan`
spellings are outside the modelled fragment (a literal "nan" cell has
already been normalised to missing by the cell cleaning), and float64
rounding of extreme literals is not modelled. -/
def toNumericCell : Option String → Option Rat
  | none => none
  | some s =>
    match s.data with
    | '-' :: cs => (parseUnsignedCL cs).map (fun q => -q)
    | '+' :: cs => parseUnsignedCL cs
    | cs => parseUnsignedCL cs

/-- `.astype("Int64")` on the coerced cell: missing passes through, an
integral value casts to its integer, and a non-integral value raises
(pandas: cannot safely cast non-equivalent float64 to int64). -/
def astypeInt64Cell : Option Rat → Except String (Option Int)
  | none => Except.ok none
  | some q => if q.den = 1 then Except.ok (some q.num) else Except.error "TypeError"

/-- The per-cell composition on line 153,
`pd.to_numeric(df["release_year"], errors="coerce").astype("Int64")`. -/
def toNumericInt64 (cell : Option String) : Except String (Option Int) :=
  astypeInt64Cell (toNumericCell cell)

instance {ε α : Type} [DecidableEq ε] [DecidableEq α] : DecidableEq (Except ε α)
  | Except.ok a, Except.ok b =>
    if h : a = b then isTrue (by rw [h]) else
      isFalse (fun hc => h (by injection hc))
  | Except.ok _, Except.error _ => isFalse (fun hc => Except.noConfusion hc)
  | Except.error _, Except.ok _ => isFalse (fun hc => Except.noConfusion hc)
  | Except.error a, Except.error b =>
    if h : a = b then isTrue (by rw [h]) else
      isFalse (fun hc => h (by injection hc))

/-! ### Generic pandas-operation embeddings -/

/-- The ordering used by `sort_values(by=key, ascending=False)`:
`a` precedes `b` when the key of `b` is at most the key of `a`. -/
def descBy {α κ : Type} (key : α → κ) [LinearOrder κ] : α → α → Prop :=
  fun a b => key b ≤ key a

instance {α κ : Type} (key : α → κ) [LinearOrder κ] : DecidableRel (descBy key) :=
  fun a b => inferInstanceAs (Decidable (key b ≤ key a))

instance {α κ : Type} (key : α → κ) [LinearOrder κ] : IsTotal α (descBy key) :=
  ⟨fun a b => le_total (key b) (key a)⟩

instance {α κ : Type} (key : α → κ) [LinearOrder κ] : IsTrans α (descBy key) :=
  ⟨fun _ _ _ hab hbc => le_trans hbc hab⟩

/-- Embedding of `DataFrame.sort_values(by=key, ascending=False)`: a
permutation of the rows in non-increasing key order.  The source uses the
pandas default `kind="quicksort"` (numpy introsort), which does not
specify the relative order of tied keys, so only tie-order-independent
properties of this function — that it is a permutation, sorted, and
membership-preserving — may be relied upon; the concrete insertion sort
here merely realises one admissible order. -/
def sortValuesDescBy {α κ : Type} (key : α → κ) [LinearOrder κ] (l : List α) : List α :=
  List.insertionSort (descBy key) l

/-- Worker for `drop_duplicates`: `seen` is the set of key values already
kept; a row whose key was seen is dropped, otherwise it is kept. -/
def dropDupAux {α κ : Type} (key : α → κ) [DecidableEq κ] : List κ → List α → List α
  | _, [] => []
  | seen, r :: rs =>
    if key r ∈ seen then dropDupAux key seen rs
    else r :: dropDupAux key (key r :: seen) rs

/-- Embedding of `DataFrame.drop_duplicates(subset=key)` (default
`keep="first"`): keeps the first row of each key value, in original order. -/
def dropDupFirstBy {α κ : Type} (key : α → κ) [DecidableEq κ] (l : List α) : List α :=
  dropDupAux key [] l

/-! ### Recommendation data model (`keyword_match`, `genre_filter`,
`recommend_movies` in `apputil.py`) -/

/-- The columns of the enriched collection that the recommender reads:
`description` (searched by `keyword_match`, nullable), `genres_list`
(searched by `genre_filter`), and the projected columns `title`,
`averageRating`, `genres`. -/
structure Record where
  title : String
  description : Option String
  genres_list : List String
  genres : List String
  averageRating : Rat
deriving DecidableEq

/-- The projection `['title', 'averageRating', 'genres', 'description']`
returned by `recommend_movies`. -/
structure ProjRecord where
  title : String
  averageRating : Rat
  genres : List String
  description : Option String
deriving DecidableEq

/-- The column projection `.loc[:, ['title', 'averageRating', 'genres',
'description']]`. -/
def project (r : Record) : ProjRecord :=
  ⟨r.title, r.averageRating, r.genres, r.description⟩

/-- The two match modes offered by the UI; any string other than `"all"`
takes the `else` (i.e. `any`) branch in the source, and the UI only ever
passes `"any"` or `"all"`. -/
inductive MatchMode
  | any
  | all
deriving DecidableEq

/-- Row predicate of the `any` branch of `keyword_match`:
`df['description'].str.contains('|'.join(map(re.escape, keywords)),
case=False, na=False)`. A missing description is a non-match (`na=False`);
an empty keyword list yields the empty pattern, which matches every
present description. -/
def descMatchAny (keywords : List String) : Option String → Bool
  | none => false
  | some d => keywords.isEmpty || keywords.any (fun k => containsCI d k)

/-- Embedding of `keyword_match(df, keywords, match_mode)`.  In `all` mode
the row lambda calls `re.search(k, desc)` for each keyword, which raises a
`TypeError` when some row's description is missing (NaN is a float) and the
keyword list is non-empty; in `any` mode missing descriptions are simply
non-matches. -/
def keyword_match (df : List Record) (keywords : List String) (mode : MatchMode) :
    Except String (List Record) :=
  match mode with
  | MatchMode.all =>
    if keywords.isEmpty then Except.ok df
    else if df.any (fun r => r.description.isNone) then
      Except.error "TypeError"
    else
      Except.ok (df.filter (fun r => keywords.all (fun k => containsCI (r.description.getD "") k)))
  | MatchMode.any =>
    Except.ok (df.filter (fun r => descMatchAny keywords r.description))

/-- The row predicate `match_genres` of `genre_filter`: lower-case the
row's genre entries (dropping falsy, i.e. empty, entries) and test the
requested lower-cased genres for membership, with `all`/`any` semantics. -/
def match_genres (genre_list_lower : List String) (mode : MatchMode) (g : List String) : Bool :=
  let g_lower := (g.filter (fun x => !(x == ""))).map strLower
  match mode with
  | MatchMode.all => genre_list_lower.all (fun genre => g_lower.contains genre)
  | MatchMode.any => genre_list_lower.any (fun genre => g_lower.contains genre)

/-- Embedding of `genre_filter(df, genre_list, match_mode)`; it reads the
`genres_list` column. -/
def genre_filter (df : List Record) (genre_list : List String) (mode : MatchMode) :
    List Record :=
  df.filter (fun r => match_genres (genre_list.map strLower) mode r.genres_list)

/-- Lines 204-210 of `recommend_movies`: the keyword filter is applied when
the keyword list is truthy (non-empty), then the genre filter when the
genre list is truthy; an exception from `keyword_match` propagates. -/
def surviving (df : List Record) (keywords genres : List String)
    (kmode gmode : MatchMode) : Except String (List Record) :=
  match (if keywords.isEmpty then Except.ok df else keyword_match df keywords kmode) with
  | Except.error e => Except.error e
  | Except.ok f1 => Except.ok (if genres.isEmpty then f1 else genre_filter f1 genres gmode)

/-- Embedding of `recommend_movies(df, keywords, genres, top_n,
keyword_match_mode, genre_match_mode)`: filter, then on an empty survivor
set return the empty frame with the documented columns, otherwise sort by
descending `averageRating`, project the documented columns, and truncate
to the first `top_n` rows. -/
def recommend_movies (df : List Record) (keywords genres : List String) (top_n : Nat)
    (kmode gmode : MatchMode) : Except String (List ProjRecord) :=
  match surviving df keywords genres kmode gmode with
  | Except.error e => Except.error e
  | Except.ok filtered =>
    if filtered.isEmpty then Except.ok []
    else
      Except.ok (((sortValuesDescBy (fun r => r.averageRating) filtered).map project).take top_n)

/-- Extracts the row list from a successful recommendation result (used to
state membership in the returned frame). -/
def resultList (e : Except String (List ProjRecord)) : List ProjRecord :=
  match e with
  | Except.ok l => l
  | Except.error _ => []

/-! ### External rating merge (`add_ratings` in `apputil.py`) -/

/-- A cleaned Netflix record as seen by the merge: its identifier and the
`title` column used as the join key. -/
structure CleanMovie where
  show_id : String
  title : String
deriving DecidableEq

/-- A row of the IMDB frame after steps 1-3 of `add_ratings` (basics merged
with ratings, filtered to `titleType == "movie"`). -/
structure ImdbRow where
  tconst : String
  primaryTitle : String
  averageRating : Rat
  numVotes : Int
deriving DecidableEq

/-- A row of the merged frame: the Netflix columns joined with the IMDB
columns. -/
structure EnrichedRow where
  netflix : CleanMovie
  imdb : ImdbRow
deriving DecidableEq

/-- Embedding of `df.merge(imdb_movies, how="inner", left_on="title",
right_on="primaryTitle")`: every pairing of a left row with a right row
whose `primaryTitle` equals the left `title`, in left-major order. -/
def mergeInnerByTitle (df : List CleanMovie) (imdb : List ImdbRow) : List EnrichedRow :=
  df.flatMap (fun r => (imdb.filter (fun i => i.primaryTitle == r.title)).map
    (fun i => { netflix := r, imdb := i }))

/-- Steps 4-5 of `add_ratings`: inner-merge on title, sort by descending
`numVotes`, and drop duplicate titles keeping the first (highest-vote) row.
The file-loading steps 1-3 are taken as the `imdb_movies` argument. -/
def add_ratings (df : List CleanMovie) (imdb_movies : List ImdbRow) : List EnrichedRow :=
  dropDupFirstBy (fun e => e.netflix.title)
    (sortValuesDescBy (fun e => e.imdb.numVotes) (mergeInnerByTitle df imdb_movies))

/-! ### Cleaning pipeline (`cleanNetflixData` in `apputil.py`) -/

/-- The raw columns of the Netflix frame that the verified cleaning steps
read; every cell is nullable free text. -/
structure RawRecord where
  show_id : Option String
  type : Option String
  duration : Option String
  release_year : Option String
deriving DecidableEq

/-- The corresponding cleaned columns. -/
structure CleanRecord where
  show_id : Option String
  type : Option String
  duration_minutes : Option Int
  seasons : Option Int
  release_year : Option Int
deriving DecidableEq

/-- The whitespace/empty normalisation applied to every object column:
`astype(str).str.strip()` followed by `replace({"": NaN, "nan": NaN,
"None": NaN})` (a NaN cell becomes the string `"nan"` and is mapped back
to NaN). -/
def normalizeCell : Option String → Option String
  | none => none
  | some s =>
    let t := pyStrip s
    if t = "" ∨ t = "nan" ∨ t = "None" then none else some t

/-- The `type` normalisation: `str.title()` then
`replace({"Tv Show": "TV Show"})`. -/
def normTypeStr (s : String) : String :=
  let t := pyTitle s
  if t = "Tv Show" then "TV Show" else t

/-- Scanner for `re.search` with a pattern of the shape
`(\d+)\s*lit`: find the leftmost maximal digit run that is followed by
optional whitespace and the literal `lit` (case-insensitively when `ci`),
and return its value.  For such patterns no backtracking inside the digit
run can succeed where the maximal run fails, so the scan is equivalent to
the regex search. -/
def extractNumLit (ci : Bool) (lit : List Char) : List Char → Option Nat
  | [] => none
  | c :: cs =>
    if c.isDigit then
      if hasLitAfterDigits ci lit ((c :: cs).dropWhile Char.isDigit) then
        some (digitsToNat ((c :: cs).takeWhile Char.isDigit))
      else extractNumLit ci lit cs
    else extractNumLit ci lit cs
where
  /-- Skip `\s*`, then match the literal as a prefix. -/
  hasLitAfterDigits (ci : Bool) (lit rest : List Char) : Bool :=
    let rest := rest.dropWhile Char.isWhitespace
    if ci then hasPrefixCL (rest.map Char.toLower) (lit.map Char.toLower)
    else hasPrefixCL rest lit

/-- `str.extract(r"(\d+)\s*min")` composed with `pd.to_numeric`. -/
def extract_minutes (s : String) : Option Nat :=
  extractNumLit false "min".data s.data

/-- `str.extract(r"(?i)(\d+)\s*Season")` composed with `pd.to_numeric`. -/
def extract_seasons (s : String) : Option Nat :=
  extractNumLit true "season".data s.data

/-- Release-year validation (lines 151-156): coerce with
`pd.to_numeric(..., errors="coerce").astype("Int64")` — which can raise on
a numeric non-integral cell — then clear values above `currentYear + 1`,
then clear values below 1900.  Comparisons with a missing value are false,
so missing values pass through both clears, and the clears themselves
never raise. -/
def cleanReleaseYearChecked (currentYear : Int) (cell : Option String) :
    Except String (Option Int) :=
  match toNumericInt64 cell with
  | Except.error e => Except.error e
  | Except.ok y0 =>
    Except.ok ((y0.bind (fun y => if y > currentYear + 1 then none else some y)).bind
      (fun y => if y < 1900 then none else some y))

/-- Value of a fallible column step on its non-raising domain (the
row-wise total model `cleanRow` is only used on inputs where the column
conversions do not raise; the error branch here lies outside that
domain). -/
def cellOnSuccess (e : Except String (Option Int)) : Option Int :=
  match e with
  | Except.ok v => v
  | Except.error _ => none

/-- Optional season-minute estimation: when enabled,
`duration_minutes.fillna(seasons * episodesPerSeason * minutesPerEpisode)`
(the product of integers is exact, so the `round()` is the identity). -/
def estimateMinutes (est : Bool) (eps mpe : Int) (minutes seasons : Option Int) :
    Option Int :=
  if est then
    match minutes with
    | some m => some m
    | none => seasons.map (fun n => n * eps * mpe)
  else minutes

/-- The row-wise part of `cleanNetflixData` on the verified columns: cell
normalisation, type normalisation, duration extraction (with optional
estimation), and release-year validation. -/
def cleanRow (est : Bool) (eps mpe currentYear : Int) (r : RawRecord) : CleanRecord :=
  let dur := normalizeCell r.duration
  let minutes := (dur.bind (fun s => extract_minutes s)).map Int.ofNat
  let seasons := (dur.bind (fun s => extract_seasons s)).map Int.ofNat
  { show_id := normalizeCell r.show_id
    type := (normalizeCell r.type).map normTypeStr
    duration_minutes := estimateMinutes est eps mpe minutes seasons
    seasons := seasons
    release_year :=
      cellOnSuccess (cleanReleaseYearChecked currentYear (normalizeCell r.release_year)) }

/-- `cleanNetflixData` on the verified columns: the row-wise transforms
followed by `drop_duplicates(subset=["show_id"])`. -/
def cleanNetflixData (est : Bool) (eps mpe currentYear : Int) (df : List RawRecord) :
    List CleanRecord :=
  dropDupFirstBy (fun r => r.show_id) (df.map (cleanRow est eps mpe currentYear))

/-! ### Generic lemmas about the pandas-operation embeddings -/

theorem dropDupAux_sublist {α κ : Type} (key : α → κ) [DecidableEq κ] :
    ∀ (seen : List κ) (l : List α), (dropDupAux key seen l).Sublist l
  | _, [] => List.Sublist.refl []
  | seen, r :: rs => by
    rw [dropDupAux]
    split
    · exact (dropDupAux_sublist key seen rs).cons r
    · exact (dropDupAux_sublist key (key r :: seen) rs).cons₂ r

theorem dropDupAux_filter_key {α κ : Type} (key : α → κ) [DecidableEq κ] (k : κ)
    (l : List α) : ∀ seen : List κ,
    (dropDupAux key seen l).filter (fun a => key a = k) =
      if k ∈ seen then [] else (l.filter (fun a => key a = k)).take 1 := by
  induction l with
  | nil => intro seen; by_cases hk : k ∈ seen <;> simp [dropDupAux, hk]
  | cons r rs ih =>
    intro seen
    by_cases hseen : key r ∈ seen
    · rw [dropDupAux, if_pos hseen, ih seen]
      by_cases hk : k ∈ seen
      · simp [hk]
      · have hne : ¬ key r = k := fun h => hk (h ▸ hseen)
        simp [hk, List.filter_cons, hne]
    · rw [dropDupAux, if_neg hseen]
      by_cases hrk : key r = k
      · subst hrk
        rw [List.filter_cons, if_pos (by simp), ih (key r :: seen),
          if_pos (List.mem_cons_self _ _), if_neg hseen, List.filter_cons, if_pos (by simp)]
        rfl
      · have hpr : ¬(decide (key r = k) = true) := by simp [hrk]
        rw [List.filter_cons, if_neg hpr, ih (key r :: seen)]
        by_cases hk : k ∈ seen
        · rw [if_pos (List.mem_cons_of_mem _ hk), if_pos hk]
        · have hk2 : k ∉ key r :: seen := by
            intro hmem
            rcases List.mem_cons.mp hmem with h | h
            · exact hrk h.symm
            · exact hk h
          rw [if_neg hk2, if_neg hk, List.filter_cons, if_neg hpr]

theorem dropDupAux_key_not_seen {α κ : Type} (key : α → κ) [DecidableEq κ]
    (l : List α) : ∀ (seen : List κ) (a : α), a ∈ dropDupAux key seen l → key a ∉ seen := by
  induction l with
  | nil => intro seen a ha; simp [dropDupAux] at ha
  | cons r rs ih =>
    intro seen a ha
    rw [dropDupAux] at ha
    by_cases hseen : key r ∈ seen
    · rw [if_pos hseen] at ha
      exact ih seen a ha
    · rw [if_neg hseen] at ha
      rcases List.mem_cons.mp ha with h | h
      · subst h; exact hseen
      · exact fun hmem => ih (key r :: seen) a h (List.mem_cons_of_mem _ hmem)

theorem dropDupAux_pairwise {α κ : Type} (key : α → κ) [DecidableEq κ]
    (l : List α) : ∀ seen : List κ,
    (dropDupAux key seen l).Pairwise (fun a b => key a ≠ key b) := by
  induction l with
  | nil => intro seen; simp [dropDupAux]
  | cons r rs ih =>
    intro seen
    rw [dropDupAux]
    by_cases hseen : key r ∈ seen
    · rw [if_pos hseen]; exact ih seen
    · rw [if_neg hseen]
      refine List.Pairwise.cons ?_ (ih (key r :: seen))
      intro b hb hkb
      exact dropDupAux_key_not_seen key rs (key r :: seen) b hb (hkb ▸ List.mem_cons_self _ _)

theorem dropDupFirstBy_filter_key {α κ : Type} (key : α → κ) [DecidableEq κ] (k : κ)
    (l : List α) :
    (dropDupFirstBy key l).filter (fun a => key a = k) =
      (l.filter (fun a => key a = k)).take 1 := by
  rw [dropDupFirstBy, dropDupAux_filter_key key k l [], if_neg (List.not_mem_nil k)]

theorem dropDupFirstBy_sublist {α κ : Type} (key : α → κ) [DecidableEq κ] (l : List α) :
    (dropDupFirstBy key l).Sublist l :=
  dropDupAux_sublist key [] l

theorem dropDupFirstBy_pairwise {α κ : Type} (key : α → κ) [DecidableEq κ] (l : List α) :
    (dropDupFirstBy key l).Pairwise (fun a b => key a ≠ key b) :=
  dropDupAux_pairwise key l []

theorem sortValuesDescBy_perm {α κ : Type} (key : α → κ) [LinearOrder κ] (l : List α) :
    (sortValuesDescBy key l).Perm l :=
  List.perm_insertionSort (descBy key) l

theorem sortValuesDescBy_sorted {α κ : Type} (key : α → κ) [LinearOrder κ] (l : List α) :
    (sortValuesDescBy key l).Pairwise (fun a b => key b ≤ key a) :=
  List.sorted_insertionSort (descBy key) l

/-- In a `Pairwise R` list, the head of a `filter` is related by `R` to every
other member satisfying the filter predicate. -/
theorem pairwise_filter_head {α : Type} {R : α → α → Prop} {p : α → Bool}
    {l : List α} {e : α} {tl : List α} (hp : l.Pairwise R) (hf : l.filter p = e :: tl) :
    ∀ x ∈ l, p x = true → x = e ∨ R e x := by
  induction l generalizing tl with
  | nil => simp at hf
  | cons a as ih =>
    rw [List.pairwise_cons] at hp
    rw [List.filter_cons] at hf
    by_cases hpa : p a = true
    · rw [if_pos hpa] at hf
      injection hf with h1 h2
      subst h1
      intro x hx hpx
      rcases List.mem_cons.mp hx with h | h
      · exact Or.inl h
      · exact Or.inr (hp.1 x h)
    · rw [if_neg hpa] at hf
      intro x hx hpx
      rcases List.mem_cons.mp hx with h | h
      · subst h; exact absurd hpx hpa
      · exact ih hp.2 hf x h hpx

/-- Filtering twice with the same predicate equals filtering once. -/
theorem filter_idem {α : Type} (p : α → Bool) (l : List α) :
    (l.filter p).filter p = l.filter p := by
  rw [List.filter_filter]
  exact List.filter_congr (fun a _ => Bool.and_self _)

/-- On a successful filter stage, `recommend_movies` returns the first
`top_n` survivors in non-increasing rating order, projected to the
documented columns (the empty-survivor branch returns the same value). -/
theorem recommend_movies_eq_of_surviving (df : List Record) (ks gs : List String)
    (n : Nat) (km gm : MatchMode) (surv : List Record)
    (h : surviving df ks gs km gm = Except.ok surv) :
    recommend_movies df ks gs n km gm =
      Except.ok (((sortValuesDescBy (fun x => x.averageRating) surv).map project).take n) := by
  unfold recommend_movies
  rw [h]
  cases surv with
  | nil => simp [sortValuesDescBy]
  | cons a as => rfl

/-! ### Claim theorems -/

/-- C5: after cleaning, `show_id` values are pairwise distinct; the cleaned
collection is a subsequence of the row-cleaned input (original order
preserved), and for every identifier value exactly the first row bearing it
survives — later duplicates are dropped. -/
theorem c5_identifier_dedup (est : Bool) (eps mpe currentYear : Int) (df : List RawRecord) :
    (cleanNetflixData est eps mpe currentYear df).Pairwise
      (fun a b => a.show_id ≠ b.show_id) ∧
    (cleanNetflixData est eps mpe currentYear df).Sublist
      (df.map (cleanRow est eps mpe currentYear)) ∧
    ∀ k : Option String,
      (cleanNetflixData est eps mpe currentYear df).filter (fun r => r.show_id = k) =
        ((df.map (cleanRow est eps mpe currentYear)).filter
          (fun r => r.show_id = k)).take 1 :=
  ⟨dropDupFirstBy_pairwise _ _, dropDupFirstBy_sublist _ _,
    fun k => dropDupFirstBy_filter_key _ k _⟩

/-- C5 witness: on a concrete collection with a duplicated identifier, the
instantiated theorem yields distinct identifiers and first-occurrence
retention. -/
theorem c5_witness :
    (cleanNetflixData false 10 45 2026
      [⟨some "s1", some "Movie", none, none⟩, ⟨some "s1", some "TV Show", none, none⟩]).Pairwise
        (fun a b => a.show_id ≠ b.show_id) ∧
    (cleanNetflixData false 10 45 2026
      [⟨some "s1", some "Movie", none, none⟩,
       ⟨some "s1", some "TV Show", none, none⟩]).filter
        (fun r => r.show_id = some "s1") =
      (([⟨some "s1", some "Movie", none, none⟩,
         ⟨some "s1", some "TV Show", none, none⟩].map
          (cleanRow false 10 45 2026)).filter (fun r => r.show_id = some "s1")).take 1 :=
  ⟨(c5_identifier_dedup false 10 45 2026 _).1,
   (c5_identifier_dedup false 10 45 2026
     [⟨some "s1", some "Movie", none, none⟩,
      ⟨some "s1", some "TV Show", none, none⟩]).2.2 (some "s1")⟩

/-- Raw record whose `type` value is neither a movie nor a TV-show variant. -/
def c4_raw : RawRecord := ⟨some "s1", some "documentary", none, none⟩

/-- C4 counterexample: the raw type value "documentary" survives cleaning as
"Documentary", which is neither "Movie" nor "TV Show" nor missing — the
normalisation only title-cases and remaps "Tv Show", it does not restrict
the domain. -/
theorem c4_counterexample :
    (cleanNetflixData false 10 45 2026 [c4_raw]).map (fun r => r.type) =
      [some "Documentary"] ∧
    (some "Documentary" : Option String) ≠ some "Movie" ∧
    (some "Documentary" : Option String) ≠ some "TV Show" ∧
    (some "Documentary" : Option String) ≠ none := by
  exact ⟨by decide, by decide, by decide, by decide⟩

/-- C4 (amended): the cleaned `type` is exactly the title-cased raw value
with "Tv Show" remapped to "TV Show"; case variants of "movie" / "tv show"
normalise into the canonical pair, while any other raw value survives
title-cased. -/
theorem c4_type_normalization :
    (∀ (est : Bool) (eps mpe currentYear : Int) (r : RawRecord),
        (cleanRow est eps mpe currentYear r).type =
          (normalizeCell r.type).map normTypeStr) ∧
    (normTypeStr "movie" = "Movie" ∧ normTypeStr "Movie" = "Movie" ∧
     normTypeStr "MOVIE" = "Movie" ∧ normTypeStr "tv show" = "TV Show" ∧
     normTypeStr "Tv Show" = "TV Show" ∧ normTypeStr "TV SHOW" = "TV Show" ∧
     normTypeStr "TV Show" = "TV Show" ∧ normTypeStr "documentary" = "Documentary") :=
  ⟨fun _ _ _ _ _ => rfl, by decide⟩

/-- C4 witness: the amended normalisation equation instantiated at a
concrete record. -/
theorem c4_witness :
    (cleanRow false 10 45 2026 ⟨some "s9", some "tv show", none, none⟩).type =
      (normalizeCell (some "tv show")).map normTypeStr :=
  c4_type_normalization.1 false 10 45 2026 ⟨some "s9", some "tv show", none, none⟩

/-- Fidelity samples of the embedded
`pd.to_numeric(..., errors="coerce").astype("Int64")` cell conversion:
integer and integral-float literals cast, a non-integral float raises, and
a non-numeric cell coerces to missing. -/
theorem toNumericInt64_samples :
    toNumericInt64 (some "1986") = Except.ok (some 1986) ∧
    toNumericInt64 (some "1986.0") = Except.ok (some 1986) ∧
    toNumericInt64 (some "1.9e3") = Except.ok (some 1900) ∧
    toNumericInt64 (some "-5") = Except.ok (some (-5)) ∧
    toNumericInt64 (some "1986.5") = Except.error "TypeError" ∧
    toNumericInt64 (some "abc") = Except.ok none ∧
    toNumericInt64 none = Except.ok none := by
  exact ⟨by decide, by decide, by decide, by decide, by decide, by decide, by decide⟩

/-- C7: a duration cell "90 min" yields 90 minutes and no seasons; a cell
"3 Seasons" yields 3 seasons and missing minutes without estimation, and
3 × 10 × 45 = 1350 estimated minutes with estimation enabled at the default
10 episodes per season and 45 minutes per episode. -/
theorem c7_duration_extraction (currentYear : Int) (r : RawRecord) :
    (r.duration = some "90 min" →
      (cleanRow false 10 45 currentYear r).duration_minutes = some 90 ∧
      (cleanRow false 10 45 currentYear r).seasons = none) ∧
    (r.duration = some "3 Seasons" →
      (cleanRow false 10 45 currentYear r).seasons = some 3 ∧
      (cleanRow false 10 45 currentYear r).duration_minutes = none ∧
      (cleanRow true 10 45 currentYear r).duration_minutes = some 1350 ∧
      (cleanRow true 10 45 currentYear r).seasons = some 3) := by
  obtain ⟨sid, ty, dur, ry⟩ := r
  refine ⟨fun h => ?_, fun h => ?_⟩
  · replace h : dur = some "90 min" := h
    subst h
    exact ⟨rfl, rfl⟩
  · replace h : dur = some "3 Seasons" := h
    subst h
    exact ⟨rfl, rfl, rfl, rfl⟩

/-- C7 witness: the extraction instantiated at concrete movie and TV
records. -/
theorem c7_witness :
    (cleanRow false 10 45 2026 ⟨some "s1", none, some "90 min", none⟩).duration_minutes =
      some 90 ∧
    (cleanRow false 10 45 2026 ⟨some "s1", none, some "90 min", none⟩).seasons = none ∧
    (cleanRow false 10 45 2026 ⟨some "s2", none, some "3 Seasons", none⟩).seasons =
      some 3 ∧
    (cleanRow false 10 45 2026 ⟨some "s2", none, some "3 Seasons", none⟩).duration_minutes =
      none ∧
    (cleanRow true 10 45 2026 ⟨some "s2", none, some "3 Seasons", none⟩).duration_minutes =
      some 1350 :=
  ⟨((c7_duration_extraction 2026 ⟨some "s1", none, some "90 min", none⟩).1 rfl).1,
   ((c7_duration_extraction 2026 ⟨some "s1", none, some "90 min", none⟩).1 rfl).2,
   ((c7_duration_extraction 2026 ⟨some "s2", none, some "3 Seasons", none⟩).2 rfl).1,
   ((c7_duration_extraction 2026 ⟨some "s2", none, some "3 Seasons", none⟩).2 rfl).2.1,
   ((c7_duration_extraction 2026 ⟨some "s2", none, some "3 Seasons", none⟩).2 rfl).2.2.1⟩

/-- C9: when no record survives the keyword and genre filters,
`recommend_movies` returns a normal empty result — not an error — whose
type is exactly the documented four-column projection. -/
theorem c9_empty_result (df : List Record) (ks gs : List String) (n : Nat)
    (km gm : MatchMode) (h : surviving df ks gs km gm = Except.ok []) :
    recommend_movies df ks gs n km gm = Except.ok ([] : List ProjRecord) := by
  unfold recommend_movies
  rw [h]
  rfl

/-- Fixture for the C9 witness: one record matching neither keyword. -/
def c9_df : List Record := [⟨"T", some "a quiet drama", ["Drama"], ["Drama"], 6⟩]

/-- C9 witness: a query with no surviving records returns the empty
projection. -/
theorem c9_witness :
    surviving c9_df ["zombie"] [] MatchMode.any MatchMode.any = Except.ok [] ∧
    recommend_movies c9_df ["zombie"] [] 10 MatchMode.any MatchMode.any =
      Except.ok ([] : List ProjRecord) :=
  ⟨by decide,
   c9_empty_result c9_df ["zombie"] [] 10 MatchMode.any MatchMode.any (by decide)⟩

/-- C10: with a non-empty keyword list and a record whose description is
missing, `any` mode succeeds and excludes that record (missing counts as a
non-match via `na=False`), while `all` mode fails the whole call with a
TypeError (the missing value reaches `re.search`). -/
theorem c10_missing_description (df : List Record) (r : Record) (ks : List String)
    (hmem : r ∈ df) (hdesc : r.description = none) (hks : ks ≠ []) :
    (keyword_match df ks MatchMode.any =
        Except.ok (df.filter (fun x => descMatchAny ks x.description)) ∧
      r ∉ df.filter (fun x => descMatchAny ks x.description)) ∧
    keyword_match df ks MatchMode.all = Except.error "TypeError" := by
  have hks' : ks.isEmpty = false := by
    cases ks with
    | nil => exact absurd rfl hks
    | cons a as => rfl
  have hany : df.any (fun x => x.description.isNone) = true :=
    List.any_eq_true.mpr ⟨r, hmem, by rw [hdesc]; rfl⟩
  refine ⟨⟨rfl, ?_⟩, ?_⟩
  · intro hc
    have hpc := List.of_mem_filter hc
    rw [hdesc] at hpc
    simp [descMatchAny] at hpc
  · simp [keyword_match, hks', hany]

/-- Fixtures for the C10 witness: one record with a missing description. -/
def c10_df : List Record := [⟨"N", none, ["Drama"], ["Drama"], 5⟩]

/-- The missing-description record of `c10_df`. -/
def c10_r : Record := ⟨"N", none, ["Drama"], ["Drama"], 5⟩

/-- C10 witness: the instantiated behaviour on the concrete fixture. -/
theorem c10_witness :
    (keyword_match c10_df ["school"] MatchMode.any =
        Except.ok (c10_df.filter (fun x => descMatchAny ["school"] x.description)) ∧
      c10_r ∉ c10_df.filter (fun x => descMatchAny ["school"] x.description)) ∧
    keyword_match c10_df ["school"] MatchMode.all = Except.error "TypeError" :=
  c10_missing_description c10_df c10_r ["school"] (by decide) rfl (by decide)

/-- C8: the recommender is a pure function of its arguments (two calls with
the same input agree and the input collection is never mutated), and both
row filters are idempotent: filtering an already-filtered collection with
the same query changes nothing. -/
theorem c8_idempotent (df : List Record) (ks gs : List String) (n : Nat)
    (km gm : MatchMode) :
    recommend_movies df ks gs n km gm = recommend_movies df ks gs n km gm ∧
    genre_filter (genre_filter df gs gm) gs gm = genre_filter df gs gm ∧
    ∀ res : List Record, keyword_match df ks km = Except.ok res →
      keyword_match res ks km = Except.ok res := by
  refine ⟨rfl, filter_idem _ df, ?_⟩
  intro res hres
  cases km with
  | any =>
    simp only [keyword_match] at hres ⊢
    injection hres with h'
    rw [← h', filter_idem]
  | all =>
    by_cases hke : ks.isEmpty = true
    · simp only [keyword_match, if_pos hke] at hres ⊢
    · simp only [keyword_match, if_neg hke] at hres ⊢
      by_cases hnone : df.any (fun x => x.description.isNone) = true
      · rw [if_pos hnone] at hres
        exact absurd hres (by simp)
      · rw [if_neg hnone] at hres
        injection hres with h'
        have hresnone : ¬(res.any (fun x => x.description.isNone) = true) := by
          intro hras
          rcases List.any_eq_true.mp hras with ⟨x, hx, hxn⟩
          rw [← h'] at hx
          exact hnone (List.any_eq_true.mpr ⟨x, (List.mem_filter.mp hx).1, hxn⟩)
        rw [if_neg hresnone, ← h', filter_idem]

/-- Fixture for the C8 witness. -/
def c8_df : List Record := [⟨"A", some "school days", ["Classic"], ["Classic"], 8⟩]

/-- C8 witness: filter idempotence instantiated on a concrete collection. -/
theorem c8_witness :
    keyword_match c8_df ["school"] MatchMode.any = Except.ok c8_df ∧
    genre_filter (genre_filter c8_df ["Classic"] MatchMode.any) ["Classic"]
        MatchMode.any =
      genre_filter c8_df ["Classic"] MatchMode.any :=
  ⟨(c8_idempotent c8_df ["school"] ["Classic"] 1 MatchMode.any MatchMode.any).2.2
      c8_df (by decide),
   (c8_idempotent c8_df ["school"] ["Classic"] 1 MatchMode.any MatchMode.any).2.1⟩

/-- Membership in the inner merge: a row is present exactly when its left
part is a collection row, its right part an external row, and the join keys
agree. -/
theorem mem_mergeInnerByTitle (df : List CleanMovie) (imdb : List ImdbRow)
    (e : EnrichedRow) :
    e ∈ mergeInnerByTitle df imdb ↔
      (e.netflix ∈ df ∧ e.imdb ∈ imdb ∧ e.imdb.primaryTitle = e.netflix.title) := by
  unfold mergeInnerByTitle
  rw [List.mem_flatMap]
  constructor
  · rintro ⟨r, hr, he⟩
    rcases List.mem_map.mp he with ⟨i, hi, heq⟩
    rcases List.mem_filter.mp hi with ⟨hiI, hbeq⟩
    subst heq
    exact ⟨hr, hiI, by simpa using hbeq⟩
  · rintro ⟨hn, hi, ht⟩
    exact ⟨e.netflix, hn, List.mem_map.mpr ⟨e.imdb,
      List.mem_filter.mpr ⟨hi, by simpa using ht⟩, rfl⟩⟩

/-- C3: the enriched collection has at most one row per title; a title is
present exactly when both the cleaned collection and the external dataset
contain it (inner join — unmatched cleaned records are dropped); and the
kept row's vote count is maximal among the external entries matching its
title. -/
theorem c3_merge_dedupe (df : List CleanMovie) (imdb : List ImdbRow) (t : String) :
    ((add_ratings df imdb).filter (fun e => e.netflix.title = t)).length ≤ 1 ∧
    ((∃ e ∈ add_ratings df imdb, e.netflix.title = t) ↔
      ((∃ r ∈ df, r.title = t) ∧ (∃ i ∈ imdb, i.primaryTitle = t))) ∧
    (∀ e ∈ add_ratings df imdb, ∀ i ∈ imdb, i.primaryTitle = e.netflix.title →
      i.numVotes ≤ e.imdb.numVotes) := by
  set merged := mergeInnerByTitle df imdb with hmerged
  set sorted := sortValuesDescBy (fun e => e.imdb.numVotes) merged with hsorted
  have hout : add_ratings df imdb =
      dropDupFirstBy (fun e => e.netflix.title) sorted := rfl
  have hfil : ∀ k : String,
      (add_ratings df imdb).filter (fun e => e.netflix.title = k) =
        (sorted.filter (fun e => e.netflix.title = k)).take 1 := by
    intro k
    rw [hout]
    exact dropDupFirstBy_filter_key (fun e => e.netflix.title) k sorted
  have hsub : (add_ratings df imdb).Sublist sorted := by
    rw [hout]
    exact dropDupFirstBy_sublist _ _
  have hperm : sorted.Perm merged := sortValuesDescBy_perm _ _
  refine ⟨?_, ?_, ?_⟩
  · rw [hfil t, List.length_take]
    exact min_le_left 1 _
  · constructor
    · rintro ⟨e, he, het⟩
      have hem : e ∈ merged := hperm.mem_iff.mp (hsub.subset he)
      rcases (mem_mergeInnerByTitle df imdb e).mp hem with ⟨hn, hi, hti⟩
      exact ⟨⟨e.netflix, hn, het⟩, ⟨e.imdb, hi, by rw [hti, het]⟩⟩
    · rintro ⟨⟨r, hr, hrt⟩, ⟨i, hi, hit⟩⟩
      have hxm : (⟨r, i⟩ : EnrichedRow) ∈ merged := by
        refine (mem_mergeInnerByTitle df imdb ⟨r, i⟩).mpr ⟨hr, hi, ?_⟩
        show i.primaryTitle = r.title
        rw [hit, hrt]
      have hxf : (⟨r, i⟩ : EnrichedRow) ∈
          sorted.filter (fun e => e.netflix.title = t) :=
        List.mem_filter.mpr ⟨hperm.mem_iff.mpr hxm, by simpa using hrt⟩
      cases hfe : sorted.filter (fun e => e.netflix.title = t) with
      | nil => rw [hfe] at hxf; cases hxf
      | cons e0 tl =>
        have he0 : e0 ∈ (add_ratings df imdb).filter (fun e => e.netflix.title = t) := by
          rw [hfil t, hfe]
          exact List.mem_cons_self _ _
        rcases List.mem_filter.mp he0 with ⟨he0o, he0t⟩
        exact ⟨e0, he0o, by simpa using he0t⟩
  · intro e he i hi hit
    have hem : e ∈ merged := hperm.mem_iff.mp (hsub.subset he)
    rcases (mem_mergeInnerByTitle df imdb e).mp hem with ⟨hn, _, _⟩
    have hef : e ∈ (add_ratings df imdb).filter
        (fun x => x.netflix.title = e.netflix.title) :=
      List.mem_filter.mpr ⟨he, by simp⟩
    rw [hfil e.netflix.title] at hef
    cases hfe : sorted.filter (fun x => x.netflix.title = e.netflix.title) with
    | nil => rw [hfe] at hef; cases hef
    | cons e0 tl =>
      rw [hfe] at hef
      have he0 : e ∈ [e0] := hef
      obtain rfl : e = e0 := List.mem_singleton.mp he0
      have hxm : (⟨e.netflix, i⟩ : EnrichedRow) ∈ merged :=
        (mem_mergeInnerByTitle df imdb ⟨e.netflix, i⟩).mpr ⟨hn, hi, hit⟩
      have hsorted_pw : sorted.Pairwise
          (fun a b => b.imdb.numVotes ≤ a.imdb.numVotes) :=
        sortValuesDescBy_sorted _ _
      have hhead := pairwise_filter_head hsorted_pw hfe
        (⟨e.netflix, i⟩ : EnrichedRow) (hperm.mem_iff.mpr hxm) (by simp)
      rcases hhead with heq | hle
      · have hieq : i = e.imdb := congrArg EnrichedRow.imdb heq
        rw [hieq]
      · exact hle

/-- Fixtures for the C3 witness: one cleaned title with two external
entries of vote counts 100 and 50. -/
def c3_df : List CleanMovie := [⟨"s1", "T"⟩]

/-- Two external entries for the same title, vote counts 50 and 100. -/
def c3_imdb : List ImdbRow := [⟨"t2", "T", 5, 50⟩, ⟨"t1", "T", 8, 100⟩]

/-- The enriched row retained by the merge for the fixture. -/
def c3_row : EnrichedRow := ⟨⟨"s1", "T"⟩, ⟨"t1", "T", 8, 100⟩⟩

/-- C3 witness: the merge keeps exactly the vote-count-100 entry, and the
theorem's vote-maximality instantiates to 50 ≤ 100. -/
theorem c3_witness :
    add_ratings c3_df c3_imdb = [c3_row] ∧
    (⟨"t2", "T", 5, 50⟩ : ImdbRow).numVotes ≤ c3_row.imdb.numVotes ∧
    ((add_ratings c3_df c3_imdb).filter (fun e => e.netflix.title = "T")).length ≤ 1 :=
  ⟨by decide,
   (c3_merge_dedupe c3_df c3_imdb "T").2.2 c3_row (by decide)
     ⟨"t2", "T", 5, 50⟩ (by decide) rfl,
   (c3_merge_dedupe c3_df c3_imdb "T").1⟩

/-- C1 (amended): a record whose description contains "school"
case-insensitively and whose genre list contains "Classic" case-insensitively
is included in the result of
`recommend_movies(df, ["school"], ["Classic"], 10, "any", "any")` —
provided at most `top_n` = 10 records survive the two filters, since the
result is truncated to the first 10 ranked rows — and the result is ordered
by non-increasing average rating. -/
theorem c1_matching_record_included (df : List Record) (r : Record) (d : String)
    (hmem : r ∈ df) (hdesc : r.description = some d)
    (hkw : containsCI d "school" = true)
    (hg : ∃ g ∈ r.genres_list, strLower g = "classic")
    (hlen : (genre_filter (df.filter (fun x => descMatchAny ["school"] x.description))
        ["Classic"] MatchMode.any).length ≤ 10) :
    recommend_movies df ["school"] ["Classic"] 10 MatchMode.any MatchMode.any =
      Except.ok (resultList (recommend_movies df ["school"] ["Classic"] 10
        MatchMode.any MatchMode.any)) ∧
    project r ∈ resultList (recommend_movies df ["school"] ["Classic"] 10
      MatchMode.any MatchMode.any) ∧
    (resultList (recommend_movies df ["school"] ["Classic"] 10 MatchMode.any
      MatchMode.any)).Pairwise (fun a b => b.averageRating ≤ a.averageRating) := by
  set gf := genre_filter (df.filter (fun x => descMatchAny ["school"] x.description))
    ["Classic"] MatchMode.any with hgf
  have hsurv : surviving df ["school"] ["Classic"] MatchMode.any MatchMode.any =
      Except.ok gf := rfl
  have hrkf : r ∈ df.filter (fun x => descMatchAny ["school"] x.description) := by
    refine List.mem_filter.mpr ⟨hmem, ?_⟩
    show descMatchAny ["school"] r.description = true
    rw [hdesc]
    show (["school"].isEmpty || ["school"].any (fun k => containsCI d k)) = true
    simp [hkw]
  have hrgf : r ∈ gf := by
    rw [hgf]
    refine List.mem_filter.mpr ⟨hrkf, ?_⟩
    show match_genres (["Classic"].map strLower) MatchMode.any r.genres_list = true
    obtain ⟨g, hgmem, hglow⟩ := hg
    have hgne : (g == "") = false := by
      cases hbe : g == "" with
      | false => rfl
      | true =>
        have hge : g = "" := by simpa using hbe
        rw [hge] at hglow
        exact absurd hglow (by decide)
    have hmemlow : strLower g ∈
        (r.genres_list.filter (fun x => !(x == ""))).map strLower :=
      List.mem_map_of_mem _ (List.mem_filter.mpr ⟨hgmem, by rw [hgne]; rfl⟩)
    rw [hglow] at hmemlow
    show ((["Classic"].map strLower).any (fun genre =>
      ((r.genres_list.filter (fun x => !(x == ""))).map strLower).contains genre)) = true
    have hcl : ["Classic"].map strLower = ["classic"] := by decide
    rw [hcl]
    simp only [List.any_cons, List.any_nil, Bool.or_false]
    exact List.elem_iff.mpr hmemlow
  have hrec := recommend_movies_eq_of_surviving df ["school"] ["Classic"] 10
    MatchMode.any MatchMode.any gf hsurv
  have hlen' : ((sortValuesDescBy (fun x => x.averageRating) gf).map project).length ≤ 10 := by
    rw [List.length_map,
      (sortValuesDescBy_perm (fun x : Record => x.averageRating) gf).length_eq]
    exact hlen
  have htake : ((sortValuesDescBy (fun x => x.averageRating) gf).map project).take 10 =
      (sortValuesDescBy (fun x => x.averageRating) gf).map project :=
    List.take_of_length_le hlen'
  have hres : resultList (recommend_movies df ["school"] ["Classic"] 10 MatchMode.any
      MatchMode.any) = (sortValuesDescBy (fun x => x.averageRating) gf).map project := by
    rw [hrec]
    show ((sortValuesDescBy (fun x => x.averageRating) gf).map project).take 10 =
      (sortValuesDescBy (fun x => x.averageRating) gf).map project
    exact htake
  refine ⟨?_, ?_, ?_⟩
  · rw [hres, hrec, htake]
  · rw [hres]
    exact List.mem_map_of_mem project
      ((sortValuesDescBy_perm (fun x : Record => x.averageRating) gf).mem_iff.mpr hrgf)
  · rw [hres]
    exact List.pairwise_map.mpr (sortValuesDescBy_sorted _ _)

/-- Fixture for the C1 witness: the spec's Ferris Bueller style record. -/
def c1_df : List Record :=
  [⟨"Ferris Buellers Day Off", some "A high school slacker takes a legendary day off",
    ["Classic", "Comedy"], ["Classic", "Comedy"], 8⟩]

/-- The record of `c1_df`. -/
def c1_rec : Record :=
  ⟨"Ferris Buellers Day Off", some "A high school slacker takes a legendary day off",
    ["Classic", "Comedy"], ["Classic", "Comedy"], 8⟩

/-- C1 witness: the fixture record is included in the recommendation and
the result is rating-ordered. -/
theorem c1_witness :
    project c1_rec ∈ resultList (recommend_movies c1_df ["school"] ["Classic"] 10
      MatchMode.any MatchMode.any) ∧
    (resultList (recommend_movies c1_df ["school"] ["Classic"] 10 MatchMode.any
      MatchMode.any)).Pairwise (fun a b => b.averageRating ≤ a.averageRating) :=
  ⟨(c1_matching_record_included c1_df c1_rec
      "A high school slacker takes a legendary day off" (by decide) rfl (by decide)
      ⟨"Classic", by decide, by decide⟩ (by decide)).2.1,
   (c1_matching_record_included c1_df c1_rec
      "A high school slacker takes a legendary day off" (by decide) rfl (by decide)
      ⟨"Classic", by decide, by decide⟩ (by decide)).2.2⟩

/-- The lowest-rated of eleven matching records. -/
def c1_cx_target : Record := ⟨"Z", some "school", ["Classic"], ["Classic"], 1⟩

/-- Eleven records all matching keyword "school" and genre "Classic". -/
def c1_cx_df : List Record :=
  [⟨"A", some "school", ["Classic"], ["Classic"], 20⟩,
   ⟨"B", some "school", ["Classic"], ["Classic"], 19⟩,
   ⟨"C", some "school", ["Classic"], ["Classic"], 18⟩,
   ⟨"D", some "school", ["Classic"], ["Classic"], 17⟩,
   ⟨"E", some "school", ["Classic"], ["Classic"], 16⟩,
   ⟨"F", some "school", ["Classic"], ["Classic"], 15⟩,
   ⟨"G", some "school", ["Classic"], ["Classic"], 14⟩,
   ⟨"H", some "school", ["Classic"], ["Classic"], 13⟩,
   ⟨"I", some "school", ["Classic"], ["Classic"], 12⟩,
   ⟨"J", some "school", ["Classic"], ["Classic"], 11⟩,
   ⟨"Z", some "school", ["Classic"], ["Classic"], 1⟩]

/-- C1 counterexample: with eleven surviving records, `top_n = 10`
truncates the ranking and the matching record with the lowest rating is
absent from the result, so the claim as stated (inclusion for every
matching record) fails. -/
theorem c1_counterexample :
    c1_cx_target ∈ c1_cx_df ∧
    c1_cx_target.description = some "school" ∧
    containsCI "school" "school" = true ∧
    ("Classic" ∈ c1_cx_target.genres_list ∧ strLower "Classic" = "classic") ∧
    project c1_cx_target ∉ resultList (recommend_movies c1_cx_df ["school"] ["Classic"]
      10 MatchMode.any MatchMode.any) := by
  exact ⟨by decide, rfl, by decide, ⟨by decide, by decide⟩, by decide⟩

end Apputil
